import Mathlib

/-!
Shallow embedding of the branded-token.js client SDK
(`src/unnamed/part_000` = BrandedToken.js, and
`src/libs/helpers/stake/gateway_composer/staker.js` = Staker), together with
theorems settling the specification claims about it.

JavaScript values are modelled by `JSValue`; machine-level coercions we need
are truthiness, property access (undefined on a missing key), `||`, and
`.length`.  Network effects are modelled as an explicit list of `Event`s
(reads and submissions) returned alongside the result, so that statements of
the form "rejects without calling the network" are provable, not definitional.
External collaborators (Web3.utils.isAddress, the contract registry, the
transaction sender) are parameters or spec-modelled recorders, since their
code is not part of this repository.
-/

/-- Model of a JavaScript value, as far as the SDK code inspects values:
truthiness, string/number payloads, arrays and plain objects. -/
inductive JSValue where
  | undefined
  | null
  | bool (b : Bool)
  | num (n : Int)
  | str (s : String)
  | arr (elems : List JSValue)
  | obj (fields : List (String × JSValue))

/-- JavaScript truthiness: undefined, null, false, 0 and the empty string are
falsy; every array and object is truthy. -/
def truthy : JSValue → Bool
  | JSValue.undefined => false
  | JSValue.null => false
  | JSValue.bool b => b
  | JSValue.num n => n != 0
  | JSValue.str s => s != ""
  | JSValue.arr _ => true
  | JSValue.obj _ => true

/-- Property access `v.name`: the field of an object when present, otherwise
`undefined` (primitives have no own properties the SDK reads). -/
def jsGet (v : JSValue) (name : String) : JSValue :=
  match v with
  | JSValue.obj fields =>
    match fields.lookup name with
    | some w => w
    | none => JSValue.undefined
  | _ => JSValue.undefined

/-- Lookup in an instance field table (`this.name`), `undefined` when the
constructor never assigned the field. -/
def lookupField (fields : List (String × JSValue)) (name : String) : JSValue :=
  match fields.lookup name with
  | some w => w
  | none => JSValue.undefined

/-- JavaScript `a || b`. -/
def jsOr (a b : JSValue) : JSValue :=
  if truthy a then a else b

/-- JavaScript `v.length`: the length of an array or string, `undefined`
otherwise. -/
def jsLength : JSValue → JSValue
  | JSValue.arr elems => JSValue.num elems.length
  | JSValue.str s => JSValue.num s.length
  | _ => JSValue.undefined

/-- Whether a value is undefined or null: property access on such a value
(`v.eth`, as in `new web3.eth.Contract`) throws a TypeError. -/
def isNullish : JSValue → Bool
  | JSValue.undefined => true
  | JSValue.null => true
  | _ => false

/-- JavaScript `v.length === 0`: strict equality, true exactly when the
length is the number 0. -/
def lengthIsZero (v : JSValue) : Bool :=
  match jsLength v with
  | JSValue.num n => n == 0
  | _ => false

/-- Errors the SDK raises or rejects with. -/
inductive JSError where
  | typeError (msg : String)
  | referenceError (msg : String)
  | jsError (msg : String)

/-- An unsent contract call: method name plus ordered argument list, as built
by `contract.methods.<method>(<args>)`. -/
structure TxDescriptor where
  method : String
  args : List JSValue

/-- Network-facing effects: a `.call()` read, or a submission of a built
transaction descriptor. -/
inductive Event where
  | read (method : String) (args : List JSValue)
  | submit (tx : TxDescriptor)

/-- Modelled from the spec: `Utils.sendTransaction` (the TransactionSender
collaborator, whose source is not under src/) signs and submits a prepared
call; we record the submission as an event. -/
def sendTransaction (tx : TxDescriptor) : Event :=
  Event.submit tx

/-- Whether an `Except` result is the success case. -/
def exOk {e a : Type} : Except e a → Bool
  | Except.ok _ => true
  | Except.error _ => false

/-! ## BrandedToken (src/unnamed/part_000) -/

/-- State stored by a successfully constructed BrandedToken client:
`this.web3`, `this.address`, `this.contract`. -/
structure BrandedTokenState where
  web3 : JSValue
  address : JSValue
  contract : JSValue

/-- BrandedToken constructor: requires `web3 instanceof Web3` (here the
parameter `isWeb3`), a well-formed address (`Web3.utils.isAddress`, here
`isAddress`), and a truthy result from the registry lookup
`Contracts.getBrandedToken` (here `getBrandedToken`, spec-modelled since the
Contracts module is not under src/); throws a TypeError otherwise, and on
success stores the connection, the address and the contract handle. -/
def BrandedToken.construct (isWeb3 : JSValue → Bool) (isAddress : JSValue → Bool)
    (getBrandedToken : JSValue → JSValue → JSValue)
    (web3 address : JSValue) : Except JSError BrandedTokenState :=
  if ! isWeb3 web3 then
    Except.error (JSError.typeError "Mandatory Parameter web3 is missing or invalid")
  else if ! isAddress address then
    Except.error (JSError.typeError "Mandatory Parameter address is missing or invalid")
  else
    let contract := getBrandedToken web3 address
    if ! truthy contract then
      Except.error (JSError.typeError "Could not load branded token contract")
    else
      Except.ok { web3 := web3, address := address, contract := contract }

/-- Raw transaction for request stake: no validation, just
`Promise.resolve(this.contract.methods.requestStake(stakeAmount, mintAmount))`. -/
def requestStakeRawTx (stakeAmount mintAmount : JSValue) : Except JSError TxDescriptor :=
  Except.ok { method := "requestStake", args := [stakeAmount, mintAmount] }

/-- BrandedToken.requestStake: validates txOptions and txOptions.from, reads
`convertToBrandedTokens(stakeAmount)` (the remote result is the oracle
`convert`), builds the two-argument raw transaction with the read result as
mint amount, and submits it.  Returns the ordered event list and outcome. -/
def BrandedToken.requestStake (isAddress : JSValue → Bool) (convert : JSValue → JSValue)
    (stakeAmount txOptions : JSValue) : List Event × Except JSError Unit :=
  if ! truthy txOptions then
    ([], Except.error (JSError.typeError "Invalid transaction options"))
  else if ! isAddress (jsGet txOptions "from") then
    ([], Except.error (JSError.typeError "Invalid from address in transaction options"))
  else
    let mintedAmount := convert stakeAmount
    match requestStakeRawTx stakeAmount mintedAmount with
    | Except.error e => ([Event.read "convertToBrandedTokens" [stakeAmount]], Except.error e)
    | Except.ok tx =>
      ([Event.read "convertToBrandedTokens" [stakeAmount], sendTransaction tx], Except.ok ())

/-- Deployment descriptor built by `contract.deploy({data: bin, arguments: args})`. -/
structure DeployDescriptor where
  data : String
  arguments : List JSValue

/-- BrandedToken.deployRawTx: validates the connection, the valueToken and
organization addresses, `conversionRate > 0` and `conversionRateDecimals <= 5`
(in that order, throwing a TypeError on the first failure), then fetches the
bytecode (`getBIN`, spec-modelled registry collaborator) and builds the
deployment descriptor with the seven constructor arguments. -/
def deployRawTx (isWeb3 : JSValue → Bool) (isAddress : JSValue → Bool)
    (getBIN : String → String)
    (web3 valueToken symbol name decimals : JSValue)
    (conversionRate conversionRateDecimals : Int)
    (organization : JSValue) : Except JSError DeployDescriptor :=
  if ! isWeb3 web3 then
    Except.error (JSError.typeError "Mandatory Parameter web3 is missing or invalid")
  else if ! isAddress valueToken then
    Except.error (JSError.typeError "Invalid valueToken address")
  else if ! isAddress organization then
    Except.error (JSError.typeError "Invalid organization address")
  else if ! decide (conversionRate > 0) then
    Except.error (JSError.typeError "Invalid conversion rate. It should be greater than zero")
  else if ! decide (conversionRateDecimals ≤ 5) then
    Except.error (JSError.typeError "Invalid conversion rate decimal. It should be less than 5")
  else
    Except.ok { data := getBIN "BrandedToken",
                arguments := [valueToken, symbol, name, decimals,
                              JSValue.num conversionRate,
                              JSValue.num conversionRateDecimals, organization] }

/-- BrandedToken.deploy: rejects on missing txOptions or a malformed
txOptions.from, otherwise builds the raw deployment transaction (any
TypeError it throws propagates as a rejection before any network call) and
submits it. -/
def BrandedToken.deploy (isWeb3 : JSValue → Bool) (isAddress : JSValue → Bool)
    (getBIN : String → String)
    (web3 valueToken symbol name decimals : JSValue)
    (conversionRate conversionRateDecimals : Int)
    (organization txOptions : JSValue) : List Event × Except JSError Unit :=
  if ! truthy txOptions then
    ([], Except.error (JSError.typeError "Invalid transaction options"))
  else if ! isAddress (jsGet txOptions "from") then
    ([], Except.error (JSError.typeError "Invalid from address"))
  else
    match deployRawTx isWeb3 isAddress getBIN web3 valueToken symbol name decimals
        conversionRate conversionRateDecimals organization with
    | Except.error e => ([], Except.error e)
    | Except.ok d =>
      ([sendTransaction { method := "deploy", args := d.arguments }], Except.ok ())

/-- Raw transaction for accept stake request: rejects with a TypeError when
any of stakeRequestHash, r, s, v is falsy (checked in that order), otherwise
resolves to the four-argument acceptStakeRequest descriptor. -/
def acceptStakeRequestRawTx (stakeRequestHash r s v : JSValue) :
    Except JSError TxDescriptor :=
  if ! truthy stakeRequestHash then
    Except.error (JSError.typeError "Invalid stakeRequestHash")
  else if ! truthy r then
    Except.error (JSError.typeError "Invalid r of signature")
  else if ! truthy s then
    Except.error (JSError.typeError "Invalid s of signature")
  else if ! truthy v then
    Except.error (JSError.typeError "Invalid v of signature")
  else
    Except.ok { method := "acceptStakeRequest", args := [stakeRequestHash, r, s, v] }

/-- BrandedToken.acceptStakeRequest: validates txOptions and txOptions.from,
awaits the raw transaction (whose rejection propagates before any network
call), then submits. -/
def BrandedToken.acceptStakeRequest (isAddress : JSValue → Bool)
    (stakeRequestHash r s v txOptions : JSValue) : List Event × Except JSError Unit :=
  if ! truthy txOptions then
    ([], Except.error (JSError.typeError "Invalid transaction options"))
  else if ! isAddress (jsGet txOptions "from") then
    ([], Except.error (JSError.typeError "Invalid from address in transaction options"))
  else
    match acceptStakeRequestRawTx stakeRequestHash r s v with
    | Except.error e => ([], Except.error e)
    | Except.ok tx => ([sendTransaction tx], Except.ok ())

/-- Raw transaction for reject stake request: rejects with a TypeError when
stakeRequestHash is falsy, otherwise resolves to the one-argument
rejectStakeRequest descriptor. -/
def rejectStakeRequestRawTx (stakeRequestHash : JSValue) : Except JSError TxDescriptor :=
  if ! truthy stakeRequestHash then
    Except.error (JSError.typeError "Invalid stakeRequestHash")
  else
    Except.ok { method := "rejectStakeRequest", args := [stakeRequestHash] }

/-- BrandedToken.rejectStakeRequest: validates txOptions and txOptions.from,
awaits the raw transaction, then submits. -/
def BrandedToken.rejectStakeRequest (isAddress : JSValue → Bool)
    (stakeRequestHash txOptions : JSValue) : List Event × Except JSError Unit :=
  if ! truthy txOptions then
    ([], Except.error (JSError.typeError "Invalid transaction options"))
  else if ! isAddress (jsGet txOptions "from") then
    ([], Except.error (JSError.typeError "Invalid from address in transaction options"))
  else
    match rejectStakeRequestRawTx stakeRequestHash with
    | Except.error e => ([], Except.error e)
    | Except.ok tx => ([sendTransaction tx], Except.ok ())

/-- Raw transaction for lift restriction: rejects when the address list is
falsy (missing) or its `.length` is strictly equal to 0, otherwise resolves
to the liftRestriction descriptor whose single argument is the list itself. -/
def liftRestrictionRawTx (addresses : JSValue) : Except JSError TxDescriptor :=
  if ! truthy addresses || lengthIsZero addresses then
    Except.error (JSError.typeError "At least one addresses must be defined")
  else
    Except.ok { method := "liftRestriction", args := [addresses] }

/-- BrandedToken.liftRestriction: validates txOptions and txOptions.from,
awaits the raw transaction, then submits. -/
def BrandedToken.liftRestriction (isAddress : JSValue → Bool)
    (addresses txOptions : JSValue) : List Event × Except JSError Unit :=
  if ! truthy txOptions then
    ([], Except.error (JSError.typeError "Invalid transaction options"))
  else if ! isAddress (jsGet txOptions "from") then
    ([], Except.error (JSError.typeError "Invalid from address in transaction options"))
  else
    match liftRestrictionRawTx addresses with
    | Except.error e => ([], Except.error e)
    | Except.ok tx => ([sendTransaction tx], Except.ok ())

/-- Raw transaction for redeem: rejects with a TypeError when amount is
falsy, otherwise resolves to the one-argument redeem descriptor. -/
def redeemRawTx (amount : JSValue) : Except JSError TxDescriptor :=
  if ! truthy amount then
    Except.error (JSError.typeError "Invalid redeemAmount")
  else
    Except.ok { method := "redeem", args := [amount] }

/-! ## Staker (src/libs/helpers/stake/gateway_composer/staker.js) -/

/-- Staker constructor: stores the arguments under the field names
originWeb3, valueToken, gatewayComposer, brandedToken, txOptions and
abiBinProvider; note that no field named web3 is ever assigned. -/
def Staker.construct (originWeb3 valueToken brandedToken gatewayComposer txOptions : JSValue) :
    List (String × JSValue) :=
  [("originWeb3", originWeb3),
   ("valueToken", valueToken),
   ("gatewayComposer", gatewayComposer),
   ("brandedToken", brandedToken),
   ("txOptions", txOptions),
   ("abiBinProvider", JSValue.obj [])]

/-- Resolution of a free identifier against the set of names in scope: under
strict mode, a reference to a name with no binding throws a ReferenceError. -/
def resolveIdent (scope : List String) (name : String) : Option String :=
  if scope.contains name then some name else none

/-- Names in scope in the body of Staker.stake in the source: exactly its
nine parameters.  Unlike every other Staker method, stake declares no local
`const oThis = this`, so `oThis` is a free identifier there. -/
def stakeScopeIdents : List String :=
  ["valueTokenAbi", "owner", "stakeVTAmountInWei", "mintBTAmountInWei",
   "gatewayAddress", "gasPrice", "gasLimit", "beneficiary", "stakerGatewayNonce"]

/-- Names in scope in the body of Staker.approveForValueToken in the source:
its two parameters plus the local `oThis`; the identifiers `originWeb3` and
`txOptions` it references are free there. -/
def approveScopeIdents : List String :=
  ["valueTokenAbi", "stakeAmountInWei", "oThis"]

/-- Staker.approveForValueToken: the body first evaluates
`const web3 = originWeb3 || oThis.originWeb3`, where `originWeb3` is a free
identifier (it is not a parameter of this method), so evaluation throws a
ReferenceError before the abi-length check and before any contract call is
built.  The branches below the resolution failure transcribe what the rest of
the body would do were the identifier bound. -/
def Staker.approveForValueToken (oThis : List (String × JSValue))
    (valueTokenAbi stakeAmountInWei : JSValue) : Except JSError TxDescriptor :=
  match resolveIdent approveScopeIdents "originWeb3" with
  | none => Except.error (JSError.referenceError "originWeb3 is not defined")
  | some _ =>
    if lengthIsZero valueTokenAbi then
      Except.error (JSError.jsError "Value token abi is not provided")
    else
      match resolveIdent approveScopeIdents "txOptions" with
      | none => Except.error (JSError.referenceError "txOptions is not defined")
      | some _ =>
        Except.ok { method := "approve",
                    args := [lookupField oThis "gatewayComposer", stakeAmountInWei] }

/-- Own fields of an object value (what `Object.assign` copies from a source
that is an object; a non-object source contributes nothing the SDK reads). -/
def objFields : JSValue → List (String × JSValue)
  | JSValue.obj fields => fields
  | _ => []

/-- `Object.assign(target, source)`: every key of the source overrides the
target entry of the same key. -/
def objAssign (target source : List (String × JSValue)) :
    List (String × JSValue) :=
  target.filter (fun p => (source.lookup p.1).isNone) ++ source

/-- Result of Staker.«_requestStakeRawTx»: the merged transaction options the
contract handle is constructed with, and the seven-argument requestStake
descriptor. -/
structure RequestStakeRawTxResult where
  txOptions : List (String × JSValue)
  txObject : TxDescriptor

/-- Staker.«_requestStakeRawTx»: resolves the connection
(`originWeb3 || oThis.originWeb3`), builds
`defaultOptions = {from: owner, to: oThis.gatewayComposer, gas: "8000000"}`,
merges the caller-supplied txOptions over it with Object.assign when
txOptions is truthy, constructs the contract handle with the merged options,
and returns the seven-argument GatewayComposer.requestStake call object. -/
def Staker.requestStakeRawTxInternal (oThis : List (String × JSValue))
    (owner stakeVTAmountInWei mintBTAmountInWei gatewayAddress beneficiary
      gasPrice gasLimit nonce originWeb3 txOptions : JSValue) :
    Except JSError RequestStakeRawTxResult :=
  let web3 := jsOr originWeb3 (lookupField oThis "originWeb3")
  if isNullish web3 then
    Except.error (JSError.typeError "Cannot read property eth of undefined")
  else
    let defaultOptions : List (String × JSValue) :=
      [("from", owner),
       ("to", lookupField oThis "gatewayComposer"),
       ("gas", JSValue.str "8000000")]
    let mergedOptions :=
      if truthy txOptions then objAssign defaultOptions (objFields txOptions)
      else defaultOptions
    Except.ok { txOptions := mergedOptions,
                txObject := { method := "requestStake",
                              args := [stakeVTAmountInWei, mintBTAmountInWei,
                                       gatewayAddress, beneficiary, gasPrice,
                                       gasLimit, nonce] } }

/-- Staker.requestStake: builds the raw transaction object via
«_requestStakeRawTx» (note the beneficiary/gasPrice/gasLimit reorder in the
forwarding) and sends it, attaching the three progress observers; the ordered
event list records the submission. -/
def Staker.requestStake (oThis : List (String × JSValue))
    (owner stakeVTAmountInWei mintBTAmountInWei gatewayAddress gasPrice gasLimit
      beneficiary stakerGatewayNonce originWeb3 txOptions : JSValue) :
    List Event × Except JSError Unit :=
  match Staker.requestStakeRawTxInternal oThis owner stakeVTAmountInWei
      mintBTAmountInWei gatewayAddress beneficiary gasPrice gasLimit
      stakerGatewayNonce originWeb3 txOptions with
  | Except.error e => ([], Except.error e)
  | Except.ok r => ([Event.submit r.txObject], Except.ok ())

/-- Staker.stake: the body is `await oThis.approveForValueToken(...)` followed
by `await oThis.requestStake(...)`, but `oThis` resolves to no binding in
stake's scope, so under strict mode the first statement throws a
ReferenceError and the method rejects before issuing either sub-call.  The
branch under a successful resolution transcribes the rest of the source body:
awaiting the (unsent) approve call object, then performing requestStake with
the instance connection and options. -/
def Staker.stake (oThis : List (String × JSValue))
    (valueTokenAbi owner stakeVTAmountInWei mintBTAmountInWei gatewayAddress
      gasPrice gasLimit beneficiary stakerGatewayNonce : JSValue) :
    List Event × Except JSError Unit :=
  match resolveIdent stakeScopeIdents "oThis" with
  | none => ([], Except.error (JSError.referenceError "oThis is not defined"))
  | some _ =>
    match Staker.approveForValueToken oThis valueTokenAbi stakeVTAmountInWei with
    | Except.error e => ([], Except.error e)
    | Except.ok _approveTx =>
      Staker.requestStake oThis owner stakeVTAmountInWei mintBTAmountInWei
        gatewayAddress gasPrice gasLimit beneficiary stakerGatewayNonce
        (lookupField oThis "originWeb3") (lookupField oThis "txOptions")

/-- Staker.convertToBTToken: the connection and the branded-token address
fall back to the instance fields originWeb3 and brandedToken when the
arguments are falsy; accessing `.eth` of an undefined or null connection
throws a TypeError, otherwise the read call is issued against the resolved
connection.  Returns the connection and contract address used together with
the read descriptor. -/
def Staker.convertToBTToken (oThis : List (String × JSValue))
    (vtAmountInWei brandedTokenContractAddress originWeb3 : JSValue) :
    Except JSError (JSValue × JSValue × TxDescriptor) :=
  let web3 := jsOr originWeb3 (lookupField oThis "originWeb3")
  let brandedToken := jsOr brandedTokenContractAddress (lookupField oThis "brandedToken")
  if isNullish web3 then
    Except.error (JSError.typeError "Cannot read property eth of undefined")
  else
    Except.ok (web3, brandedToken,
      { method := "convertToBrandedTokens", args := [vtAmountInWei] })

/-- Staker.«_getStakeRequestHashForStakerRawTx»: the connection falls back to
`oThis.web3` (a field the constructor never assigns), so with the originWeb3
argument omitted the resolved connection is undefined and constructing the
contract throws a TypeError.  Returns the connection used together with the
read descriptor. -/
def Staker.getStakeRequestHashForStakerRawTx (oThis : List (String × JSValue))
    (staker originWeb3 : JSValue) : Except JSError (JSValue × TxDescriptor) :=
  let web3 := jsOr originWeb3 (lookupField oThis "web3")
  if isNullish web3 then
    Except.error (JSError.typeError "Cannot read property eth of undefined")
  else
    Except.ok (web3, { method := "stakeRequestHashes", args := [staker] })

/-- Staker.«_getStakeRequestRawTx»: same `oThis.web3` fallback as
getStakeRequestHashForStakerRawTx, reading stakeRequests on the branded-token
contract. -/
def Staker.getStakeRequestRawTx (oThis : List (String × JSValue))
    (stakeRequestHash originWeb3 : JSValue) : Except JSError (JSValue × TxDescriptor) :=
  let web3 := jsOr originWeb3 (lookupField oThis "web3")
  if isNullish web3 then
    Except.error (JSError.typeError "Cannot read property eth of undefined")
  else
    Except.ok (web3, { method := "stakeRequests", args := [stakeRequestHash] })

/-- Staker.«_getGCStakeRequestRawTx»: same `oThis.web3` fallback, reading
stakeRequests on the gateway-composer contract. -/
def Staker.getGCStakeRequestRawTx (oThis : List (String × JSValue))
    (stakeRequestHash originWeb3 : JSValue) : Except JSError (JSValue × TxDescriptor) :=
  let web3 := jsOr originWeb3 (lookupField oThis "web3")
  if isNullish web3 then
    Except.error (JSError.typeError "Cannot read property eth of undefined")
  else
    Except.ok (web3, { method := "stakeRequests", args := [stakeRequestHash] })

/-- Address predicate used by the concrete witnesses: accepts exactly the
string "0xA". -/
def sampleIsAddress (v : JSValue) : Bool :=
  match v with
  | JSValue.str s => s == "0xA"
  | _ => false

/-- Conversion oracle used by the concrete witnesses: maps any value to the
number 35. -/
def sampleConvert (_ : JSValue) : JSValue :=
  JSValue.num 35

/-- Transaction options used by the concrete witnesses. -/
def sampleTxOptions : JSValue :=
  JSValue.obj [("from", JSValue.str "0xA")]

/-- Web3-instance predicate used by the concrete witnesses: accepts exactly
the objects. -/
def sampleIsWeb3 (v : JSValue) : Bool :=
  match v with
  | JSValue.obj _ => true
  | _ => false

/-- Registry lookup used by the concrete witnesses: always yields a (truthy)
contract handle. -/
def sampleGetBrandedToken (_web3 _address : JSValue) : JSValue :=
  JSValue.obj [("name", JSValue.str "BrandedToken")]

/-- Bytecode lookup used by the concrete witnesses. -/
def sampleGetBIN (_name : String) : String :=
  "0x6080"

/-- Staker instance fields used by the concrete witnesses. -/
def sampleStakerFields : List (String × JSValue) :=
  Staker.construct (JSValue.obj []) (JSValue.str "0xV") (JSValue.str "0xB")
    (JSValue.str "0xG") (JSValue.obj [])

/-- C1: requestStake with a well-formed from address first issues the
convertToBrandedTokens read with exactly stakeAmount, and the submitted
descriptor is the two-argument requestStake call whose second argument is the
value returned by that read. -/
theorem requestStake_reads_then_submits_derived_mint
    (isAddress : JSValue → Bool) (convert : JSValue → JSValue)
    (stakeAmount txOptions : JSValue)
    (hopt : truthy txOptions = true)
    (hfrom : isAddress (jsGet txOptions "from") = true) :
    BrandedToken.requestStake isAddress convert stakeAmount txOptions =
      ([Event.read "convertToBrandedTokens" [stakeAmount],
        Event.submit { method := "requestStake",
                       args := [stakeAmount, convert stakeAmount] }],
       Except.ok ()) := by
  unfold BrandedToken.requestStake
  rw [hopt, hfrom]
  rfl

/-- Witness for C1 at a concrete input. -/
theorem requestStake_reads_then_submits_derived_mint_witness :
    BrandedToken.requestStake sampleIsAddress sampleConvert (JSValue.num 10) sampleTxOptions =
      ([Event.read "convertToBrandedTokens" [JSValue.num 10],
        Event.submit { method := "requestStake",
                       args := [JSValue.num 10, JSValue.num 35] }],
       Except.ok ()) :=
  requestStake_reads_then_submits_derived_mint sampleIsAddress sampleConvert
    (JSValue.num 10) sampleTxOptions (by decide) (by decide)

/-- C2: with every other parameter valid, deployment fails with a validation
error before any network call exactly when conversionRate <= 0 or
conversionRateDecimals > 5, and these two checks pass otherwise. -/
theorem deploy_conversion_parameter_validation
    (isWeb3 isAddress : JSValue → Bool) (getBIN : String → String)
    (web3 valueToken symbol name decimals organization txOptions : JSValue)
    (conversionRate conversionRateDecimals : Int)
    (hweb3 : isWeb3 web3 = true)
    (hvt : isAddress valueToken = true)
    (horg : isAddress organization = true)
    (hopt : truthy txOptions = true)
    (hfrom : isAddress (jsGet txOptions "from") = true) :
    (exOk (deployRawTx isWeb3 isAddress getBIN web3 valueToken symbol name decimals
        conversionRate conversionRateDecimals organization) = true
      ↔ (0 < conversionRate ∧ conversionRateDecimals ≤ 5)) ∧
    ((conversionRate ≤ 0 ∨ 5 < conversionRateDecimals) →
      ∃ msg, BrandedToken.deploy isWeb3 isAddress getBIN web3 valueToken symbol name
          decimals conversionRate conversionRateDecimals organization txOptions =
        ([], Except.error (JSError.typeError msg))) ∧
    (0 < conversionRate → conversionRateDecimals ≤ 5 →
      BrandedToken.deploy isWeb3 isAddress getBIN web3 valueToken symbol name
          decimals conversionRate conversionRateDecimals organization txOptions =
        ([sendTransaction { method := "deploy",
                            args := [valueToken, symbol, name, decimals,
                                     JSValue.num conversionRate,
                                     JSValue.num conversionRateDecimals,
                                     organization] }],
         Except.ok ())) := by
  unfold BrandedToken.deploy deployRawTx
  rw [hweb3, hvt, horg, hopt, hfrom]
  by_cases hr : 0 < conversionRate
  · by_cases hd : conversionRateDecimals ≤ 5
    · simp [hr, hd, exOk]
    · simp [hr, hd, exOk]
  · simp [hr, exOk]

/-- Witness for C2 at concrete inputs: a deployment with conversionRate 35
and conversionRateDecimals 1 passes both checks and is submitted. -/
theorem deploy_conversion_parameter_validation_witness :
    BrandedToken.deploy sampleIsWeb3 sampleIsAddress sampleGetBIN (JSValue.obj [])
        (JSValue.str "0xA") (JSValue.str "SYM") (JSValue.str "Name") (JSValue.num 18)
        35 1 (JSValue.str "0xA") sampleTxOptions =
      ([sendTransaction { method := "deploy",
                          args := [JSValue.str "0xA", JSValue.str "SYM",
                                   JSValue.str "Name", JSValue.num 18,
                                   JSValue.num 35, JSValue.num 1,
                                   JSValue.str "0xA"] }],
       Except.ok ()) :=
  (deploy_conversion_parameter_validation sampleIsWeb3 sampleIsAddress sampleGetBIN
      (JSValue.obj []) (JSValue.str "0xA") (JSValue.str "SYM") (JSValue.str "Name")
      (JSValue.num 18) (JSValue.str "0xA") sampleTxOptions 35 1
      (by decide) (by decide) (by decide) (by decide) (by decide)).2.2
    (by decide) (by decide)

/-- C4: with valid transaction options, acceptStakeRequest rejects without
any network event whenever one of stakeRequestHash, r, s, v is falsy, and
rejectStakeRequest rejects whenever stakeRequestHash is falsy; both also
reject without network events when txOptions.from is not a well-formed
address. -/
theorem acceptRejectStakeRequest_falsy_validation
    (isAddress : JSValue → Bool) (stakeRequestHash r s v txOptions : JSValue)
    (hopt : truthy txOptions = true)
    (hfrom : isAddress (jsGet txOptions "from") = true) :
    ((truthy stakeRequestHash = false ∨ truthy r = false ∨ truthy s = false ∨
        truthy v = false) →
      ∃ msg, BrandedToken.acceptStakeRequest isAddress stakeRequestHash r s v txOptions =
        ([], Except.error (JSError.typeError msg))) ∧
    (truthy stakeRequestHash = false →
      ∃ msg, BrandedToken.rejectStakeRequest isAddress stakeRequestHash txOptions =
        ([], Except.error (JSError.typeError msg))) ∧
    (∀ badOpts, truthy badOpts = true → isAddress (jsGet badOpts "from") = false →
      (∃ msg, BrandedToken.acceptStakeRequest isAddress stakeRequestHash r s v badOpts =
        ([], Except.error (JSError.typeError msg))) ∧
      (∃ msg, BrandedToken.rejectStakeRequest isAddress stakeRequestHash badOpts =
        ([], Except.error (JSError.typeError msg)))) := by
  refine ⟨?_, ?_, ?_⟩
  · intro hfalsy
    unfold BrandedToken.acceptStakeRequest acceptStakeRequestRawTx
    rw [hopt, hfrom]
    rcases hfalsy with h1 | h2 | h3 | h4
    · simp [h1]
    · by_cases h1 : truthy stakeRequestHash <;> simp [h1, h2]
    · by_cases h1 : truthy stakeRequestHash <;> by_cases h2 : truthy r <;>
        simp [h1, h2, h3]
    · by_cases h1 : truthy stakeRequestHash <;> by_cases h2 : truthy r <;>
        by_cases h3 : truthy s <;> simp [h1, h2, h3, h4]
  · intro h1
    unfold BrandedToken.rejectStakeRequest rejectStakeRequestRawTx
    rw [hopt, hfrom]
    simp [h1]
  · intro badOpts hbad hbadfrom
    constructor
    · unfold BrandedToken.acceptStakeRequest
      rw [hbad, hbadfrom]
      simp
    · unfold BrandedToken.rejectStakeRequest
      rw [hbad, hbadfrom]
      simp

/-- Witness for C4 at concrete inputs: a falsy r (the number 0) makes
acceptStakeRequest reject with no events, and a falsy hash (empty string)
makes rejectStakeRequest reject with no events. -/
theorem acceptRejectStakeRequest_falsy_validation_witness :
    (∃ msg, BrandedToken.acceptStakeRequest sampleIsAddress (JSValue.str "0xHash")
        (JSValue.num 0) (JSValue.str "0xS") (JSValue.num 28) sampleTxOptions =
      ([], Except.error (JSError.typeError msg))) ∧
    (∃ msg, BrandedToken.rejectStakeRequest sampleIsAddress (JSValue.str "")
        sampleTxOptions = ([], Except.error (JSError.typeError msg))) :=
  ⟨(acceptRejectStakeRequest_falsy_validation sampleIsAddress (JSValue.str "0xHash")
      (JSValue.num 0) (JSValue.str "0xS") (JSValue.num 28) sampleTxOptions
      (by decide) (by decide)).1 (Or.inr (Or.inl (by decide))),
   (acceptRejectStakeRequest_falsy_validation sampleIsAddress (JSValue.str "")
      (JSValue.num 0) (JSValue.str "0xS") (JSValue.num 28) sampleTxOptions
      (by decide) (by decide)).2.1 (by decide)⟩

/-- C5: with valid transaction options, liftRestriction rejects with a
validation error and no network event on an empty or missing address list,
and on a one-element list it builds and submits the descriptor whose
argument list is exactly the one-element list itself. -/
theorem liftRestriction_empty_rejects_and_singleton_wraps
    (isAddress : JSValue → Bool) (addr txOptions : JSValue)
    (hopt : truthy txOptions = true)
    (hfrom : isAddress (jsGet txOptions "from") = true) :
    (∃ msg, BrandedToken.liftRestriction isAddress (JSValue.arr []) txOptions =
      ([], Except.error (JSError.typeError msg))) ∧
    (∃ msg, BrandedToken.liftRestriction isAddress JSValue.undefined txOptions =
      ([], Except.error (JSError.typeError msg))) ∧
    liftRestrictionRawTx (JSValue.arr [addr]) =
      Except.ok { method := "liftRestriction", args := [JSValue.arr [addr]] } ∧
    BrandedToken.liftRestriction isAddress (JSValue.arr [addr]) txOptions =
      ([Event.submit { method := "liftRestriction", args := [JSValue.arr [addr]] }],
       Except.ok ()) := by
  unfold BrandedToken.liftRestriction liftRestrictionRawTx
  rw [hopt, hfrom]
  simp [truthy, lengthIsZero, jsLength, sendTransaction]

/-- Witness for C5 at a concrete input. -/
theorem liftRestriction_empty_rejects_and_singleton_wraps_witness :
    BrandedToken.liftRestriction sampleIsAddress (JSValue.arr [JSValue.str "0xA"])
        sampleTxOptions =
      ([Event.submit { method := "liftRestriction",
                       args := [JSValue.arr [JSValue.str "0xA"]] }],
       Except.ok ()) :=
  (liftRestriction_empty_rejects_and_singleton_wraps sampleIsAddress
      (JSValue.str "0xA") sampleTxOptions (by decide) (by decide)).2.2.2

/-- C7: construction succeeds and stores the connection, the address and the
registry contract handle exactly when the connection is a Web3 instance, the
address is well-formed and the registry yields a (truthy) contract; it fails
fast with a construction error whenever any of the three conditions fails. -/
theorem construct_fails_fast_or_stores
    (isWeb3 isAddress : JSValue → Bool)
    (getBrandedToken : JSValue → JSValue → JSValue) (web3 address : JSValue) :
    (isWeb3 web3 = true → isAddress address = true →
      truthy (getBrandedToken web3 address) = true →
      BrandedToken.construct isWeb3 isAddress getBrandedToken web3 address =
        Except.ok { web3 := web3, address := address,
                    contract := getBrandedToken web3 address }) ∧
    ((isWeb3 web3 = false ∨ isAddress address = false ∨
        truthy (getBrandedToken web3 address) = false) →
      ∃ msg, BrandedToken.construct isWeb3 isAddress getBrandedToken web3 address =
        Except.error (JSError.typeError msg)) := by
  constructor
  · intro h1 h2 h3
    unfold BrandedToken.construct
    rw [h1, h2]
    simp [h3]
  · intro hbad
    unfold BrandedToken.construct
    rcases hbad with h1 | h2 | h3
    · simp [h1]
    · by_cases h1 : isWeb3 web3 <;> simp [h1, h2]
    · by_cases h1 : isWeb3 web3 <;> by_cases h2 : isAddress address <;>
        simp [h1, h2, h3]

/-- Witness for C7 at concrete inputs: valid connection, address and registry
result give a constructed client storing all three. -/
theorem construct_fails_fast_or_stores_witness :
    BrandedToken.construct sampleIsWeb3 sampleIsAddress sampleGetBrandedToken
        (JSValue.obj []) (JSValue.str "0xA") =
      Except.ok { web3 := JSValue.obj [], address := JSValue.str "0xA",
                  contract := sampleGetBrandedToken (JSValue.obj [])
                    (JSValue.str "0xA") } :=
  (construct_fails_fast_or_stores sampleIsWeb3 sampleIsAddress
      sampleGetBrandedToken (JSValue.obj []) (JSValue.str "0xA")).1
    (by decide) (by decide) (by decide)

/-- C10: requestStakeRawTx resolves to the two-argument descriptor for every
stake and mint amount, falsy ones included, performing no validation, while
redeemRawTx rejects every falsy amount. -/
theorem requestStakeRawTx_never_validates_unlike_redeem
    (stakeAmount mintAmount : JSValue) :
    requestStakeRawTx stakeAmount mintAmount =
      Except.ok { method := "requestStake", args := [stakeAmount, mintAmount] } ∧
    (∀ amount, truthy amount = false →
      ∃ msg, redeemRawTx amount = Except.error (JSError.typeError msg)) := by
  constructor
  · rfl
  · intro amount hamount
    unfold redeemRawTx
    simp [hamount]

/-- Witness for C10 at concrete inputs: the falsy amounts 0 and undefined
still yield a requestStake descriptor, while redeemRawTx rejects 0. -/
theorem requestStakeRawTx_never_validates_unlike_redeem_witness :
    requestStakeRawTx (JSValue.num 0) JSValue.undefined =
      Except.ok { method := "requestStake",
                  args := [JSValue.num 0, JSValue.undefined] } ∧
    (∃ msg, redeemRawTx (JSValue.num 0) =
      Except.error (JSError.typeError msg)) :=
  ⟨(requestStakeRawTx_never_validates_unlike_redeem (JSValue.num 0)
      JSValue.undefined).1,
   (requestStakeRawTx_never_validates_unlike_redeem (JSValue.num 0)
      JSValue.undefined).2 (JSValue.num 0) (by decide)⟩

/-- Helper: a truthy value is neither undefined nor null. -/
theorem truthy_not_nullish (v : JSValue) (h : truthy v = true) :
    isNullish v = false := by
  cases v <;> simp_all [truthy, isNullish]

/-- Helper: lookup in the filtered target of an Object.assign merge yields
the target entry exactly when the source has no entry for the key. -/
theorem lookup_filter_not_in_source (t s : List (String × JSValue)) (k : String) :
    List.lookup k (t.filter (fun p => (List.lookup p.1 s).isNone)) =
      if (List.lookup k s).isNone then List.lookup k t else none := by
  induction t with
  | nil => simp
  | cons p rest ih =>
    obtain ⟨pk, pv⟩ := p
    rw [List.filter_cons]
    by_cases hk : k = pk
    · subst hk
      cases hs : (List.lookup k s).isNone
      · simp [hs, ih]
      · simp [hs, List.lookup_cons, ih]
    · have hbeq : (k == pk) = false := by simp [hk]
      cases hpk : (List.lookup pk s).isNone
      · simp [hpk, ih, List.lookup_cons, hbeq]
      · simp [hpk, List.lookup_cons, hbeq, ih]

/-- Helper: lookup in an Object.assign merge prefers the source entry and
falls back to the target entry. -/
theorem objAssign_lookup (t s : List (String × JSValue)) (k : String) :
    List.lookup k (objAssign t s) = (List.lookup k s).or (List.lookup k t) := by
  unfold objAssign
  rw [List.lookup_append, lookup_filter_not_in_source]
  cases hs : List.lookup k s with
  | some w => simp [hs, Option.or]
  | none => cases ht : List.lookup k t <;> simp [hs, ht, Option.or]

/-- C6: the options the composer contract handle is constructed with are the
caller-supplied txOptions merged over the default from/to/gas record: with no
caller txOptions or no caller gas entry the merged options carry gas
"8000000", and a caller-supplied gas entry is honored. -/
theorem requestStakeRawTxInternal_gas_defaulting
    (oThis : List (String × JSValue))
    (owner stakeVTAmountInWei mintBTAmountInWei gatewayAddress beneficiary
      gasPrice gasLimit nonce originWeb3 : JSValue)
    (hconn : isNullish (jsOr originWeb3 (lookupField oThis "originWeb3")) = false) :
    (∃ res, Staker.requestStakeRawTxInternal oThis owner stakeVTAmountInWei
        mintBTAmountInWei gatewayAddress beneficiary gasPrice gasLimit nonce
        originWeb3 JSValue.undefined = Except.ok res ∧
      lookupField res.txOptions "gas" = JSValue.str "8000000" ∧
      lookupField res.txOptions "from" = owner ∧
      lookupField res.txOptions "to" = lookupField oThis "gatewayComposer") ∧
    (∀ fields : List (String × JSValue),
      (List.lookup "gas" fields = none →
        ∃ res, Staker.requestStakeRawTxInternal oThis owner stakeVTAmountInWei
            mintBTAmountInWei gatewayAddress beneficiary gasPrice gasLimit nonce
            originWeb3 (JSValue.obj fields) = Except.ok res ∧
          lookupField res.txOptions "gas" = JSValue.str "8000000") ∧
      (∀ g, List.lookup "gas" fields = some g →
        ∃ res, Staker.requestStakeRawTxInternal oThis owner stakeVTAmountInWei
            mintBTAmountInWei gatewayAddress beneficiary gasPrice gasLimit nonce
            originWeb3 (JSValue.obj fields) = Except.ok res ∧
          lookupField res.txOptions "gas" = g)) := by
  constructor
  · refine ⟨{ txOptions := [("from", owner),
                ("to", lookupField oThis "gatewayComposer"),
                ("gas", JSValue.str "8000000")],
              txObject := { method := "requestStake",
                            args := [stakeVTAmountInWei, mintBTAmountInWei,
                                     gatewayAddress, beneficiary, gasPrice,
                                     gasLimit, nonce] } }, ?_, rfl, rfl, rfl⟩
    simp [Staker.requestStakeRawTxInternal, hconn, truthy]
  · intro fields
    constructor
    · intro hnone
      refine ⟨{ txOptions := objAssign [("from", owner),
                  ("to", lookupField oThis "gatewayComposer"),
                  ("gas", JSValue.str "8000000")] fields,
                txObject := { method := "requestStake",
                              args := [stakeVTAmountInWei, mintBTAmountInWei,
                                       gatewayAddress, beneficiary, gasPrice,
                                       gasLimit, nonce] } }, ?_, ?_⟩
      · simp [Staker.requestStakeRawTxInternal, hconn, truthy, objFields]
      · unfold lookupField
        rw [objAssign_lookup, hnone]
        rfl
    · intro g hsome
      refine ⟨{ txOptions := objAssign [("from", owner),
                  ("to", lookupField oThis "gatewayComposer"),
                  ("gas", JSValue.str "8000000")] fields,
                txObject := { method := "requestStake",
                              args := [stakeVTAmountInWei, mintBTAmountInWei,
                                       gatewayAddress, beneficiary, gasPrice,
                                       gasLimit, nonce] } }, ?_, ?_⟩
      · simp [Staker.requestStakeRawTxInternal, hconn, truthy, objFields]
      · unfold lookupField
        rw [objAssign_lookup, hsome]
        rfl

/-- Witness for C6 at concrete inputs: with no caller txOptions the merged
options carry gas "8000000"; with caller options {gas: "123"} they carry
"123". -/
theorem requestStakeRawTxInternal_gas_defaulting_witness :
    (∃ res, Staker.requestStakeRawTxInternal sampleStakerFields
        (JSValue.str "0xO") (JSValue.num 10) (JSValue.num 35)
        (JSValue.str "0xGw") (JSValue.str "0xBe") (JSValue.num 1)
        (JSValue.num 1) (JSValue.num 0) (JSValue.obj []) JSValue.undefined =
        Except.ok res ∧
      lookupField res.txOptions "gas" = JSValue.str "8000000" ∧
      lookupField res.txOptions "from" = JSValue.str "0xO" ∧
      lookupField res.txOptions "to" =
        lookupField sampleStakerFields "gatewayComposer") ∧
    (∃ res, Staker.requestStakeRawTxInternal sampleStakerFields
        (JSValue.str "0xO") (JSValue.num 10) (JSValue.num 35)
        (JSValue.str "0xGw") (JSValue.str "0xBe") (JSValue.num 1)
        (JSValue.num 1) (JSValue.num 0) (JSValue.obj [])
        (JSValue.obj [("gas", JSValue.str "123")]) = Except.ok res ∧
      lookupField res.txOptions "gas" = JSValue.str "123") :=
  ⟨(requestStakeRawTxInternal_gas_defaulting sampleStakerFields
      (JSValue.str "0xO") (JSValue.num 10) (JSValue.num 35) (JSValue.str "0xGw")
      (JSValue.str "0xBe") (JSValue.num 1) (JSValue.num 1) (JSValue.num 0)
      (JSValue.obj []) (by decide)).1,
   ((requestStakeRawTxInternal_gas_defaulting sampleStakerFields
      (JSValue.str "0xO") (JSValue.num 10) (JSValue.num 35) (JSValue.str "0xGw")
      (JSValue.str "0xBe") (JSValue.num 1) (JSValue.num 1) (JSValue.num 0)
      (JSValue.obj []) (by decide)).2
      [("gas", JSValue.str "123")]).2 (JSValue.str "123") rfl⟩

/-- C8: with an empty valueTokenAbi the stake orchestration rejects with an
error and zero network events, and the approval step itself
(approveForValueToken) also raises an error before any contract call is
built. -/
theorem stake_empty_abi_fails_before_any_call
    (oThis : List (String × JSValue))
    (valueTokenAbi owner stakeVTAmountInWei mintBTAmountInWei gatewayAddress
      gasPrice gasLimit beneficiary stakerGatewayNonce : JSValue)
    (habi : lengthIsZero valueTokenAbi = true) :
    Staker.stake oThis valueTokenAbi owner stakeVTAmountInWei mintBTAmountInWei
        gatewayAddress gasPrice gasLimit beneficiary stakerGatewayNonce =
      ([], Except.error (JSError.referenceError "oThis is not defined")) ∧
    (∃ e, Staker.approveForValueToken oThis valueTokenAbi stakeVTAmountInWei =
      Except.error e) := by
  exact ⟨rfl, ⟨JSError.referenceError "originWeb3 is not defined", rfl⟩⟩

/-- Witness for C8 at a concrete input: an empty abi array. -/
theorem stake_empty_abi_fails_before_any_call_witness :
    lengthIsZero (JSValue.arr []) = true ∧
    Staker.stake sampleStakerFields (JSValue.arr []) (JSValue.str "0xO")
        (JSValue.num 10) (JSValue.num 35) (JSValue.str "0xGw") (JSValue.num 1)
        (JSValue.num 1) (JSValue.str "0xBe") (JSValue.num 0) =
      ([], Except.error (JSError.referenceError "oThis is not defined")) :=
  ⟨by decide,
   (stake_empty_abi_fails_before_any_call sampleStakerFields (JSValue.arr [])
      (JSValue.str "0xO") (JSValue.num 10) (JSValue.num 35) (JSValue.str "0xGw")
      (JSValue.num 1) (JSValue.num 1) (JSValue.str "0xBe") (JSValue.num 0)
      (by decide)).1⟩

/-- C3: at a fully concrete, otherwise-valid invocation with a non-empty abi,
Staker.stake rejects with a ReferenceError (the free identifier oThis) and
the event list is empty: the approval submission is never issued, so no
approval completes before the composer submission. -/
theorem stake_never_issues_approval_at_concrete_input :
    Staker.stake sampleStakerFields (JSValue.arr [JSValue.obj []])
        (JSValue.str "0xO") (JSValue.num 10) (JSValue.num 35)
        (JSValue.str "0xGw") (JSValue.num 1) (JSValue.num 1)
        (JSValue.str "0xBe") (JSValue.num 0) =
      ([], Except.error (JSError.referenceError "oThis is not defined")) := rfl

/-- C9: the Staker constructor stores the connection under originWeb3 and
never assigns a web3 field; each of the three read-only lookup helpers falls
back to the unassigned web3 field and therefore fails with a TypeError when
the originWeb3 argument is omitted, while convertToBTToken falls back to the
stored originWeb3 connection and succeeds against it. -/
theorem lookup_helpers_fall_back_to_unassigned_web3
    (originWeb3 valueToken brandedToken gatewayComposer txOptions
      staker stakeRequestHash vtAmountInWei : JSValue)
    (hconn : truthy originWeb3 = true) :
    lookupField (Staker.construct originWeb3 valueToken brandedToken
        gatewayComposer txOptions) "web3" = JSValue.undefined ∧
    (∃ e, Staker.getStakeRequestHashForStakerRawTx (Staker.construct originWeb3
        valueToken brandedToken gatewayComposer txOptions) staker
        JSValue.undefined = Except.error e) ∧
    (∃ e, Staker.getStakeRequestRawTx (Staker.construct originWeb3 valueToken
        brandedToken gatewayComposer txOptions) stakeRequestHash
        JSValue.undefined = Except.error e) ∧
    (∃ e, Staker.getGCStakeRequestRawTx (Staker.construct originWeb3 valueToken
        brandedToken gatewayComposer txOptions) stakeRequestHash
        JSValue.undefined = Except.error e) ∧
    Staker.convertToBTToken (Staker.construct originWeb3 valueToken brandedToken
        gatewayComposer txOptions) vtAmountInWei JSValue.undefined
        JSValue.undefined =
      Except.ok (originWeb3, brandedToken,
        { method := "convertToBrandedTokens", args := [vtAmountInWei] }) := by
  have hnn : isNullish originWeb3 = false := truthy_not_nullish originWeb3 hconn
  refine ⟨rfl, ⟨JSError.typeError "Cannot read property eth of undefined", rfl⟩,
    ⟨JSError.typeError "Cannot read property eth of undefined", rfl⟩,
    ⟨JSError.typeError "Cannot read property eth of undefined", rfl⟩, ?_⟩
  unfold Staker.convertToBTToken
  simp [Staker.construct, lookupField, jsOr, truthy, hnn]
  rfl

/-- Witness for C9 at concrete inputs. -/
theorem lookup_helpers_fall_back_to_unassigned_web3_witness :
    truthy (JSValue.obj []) = true ∧
    Staker.convertToBTToken sampleStakerFields (JSValue.num 10)
        JSValue.undefined JSValue.undefined =
      Except.ok (JSValue.obj [], JSValue.str "0xB",
        { method := "convertToBrandedTokens", args := [JSValue.num 10] }) :=
  ⟨by decide,
   (lookup_helpers_fall_back_to_unassigned_web3 (JSValue.obj [])
      (JSValue.str "0xV") (JSValue.str "0xB") (JSValue.str "0xG")
      (JSValue.obj []) JSValue.undefined JSValue.undefined (JSValue.num 10)
      (by decide)).2.2.2.2⟩
